import Mathlib

set_option linter.unusedVariables false

/-!
Verification of the pktpy-hi core (src/include/pktpy_hi.h): scope guards,
register-backed value constructors, and the safe call-dispatch family.

The embedded interpreter substrate (operand stack, register bank, pending
exception cell, return-value cell, global namespace) is owned by pocketpy,
not by this repository; it is modelled explicitly as a state record, with
the pocketpy primitives used by the wrapper given as state-transforming
functions following their documented semantics (spec section 6). The
wrapper functions themselves are translated line by line from
src/include/pktpy_hi.h.
-/

namespace PktpyHi

/-- A Python value as stored in one interpreter storage cell. Floats are
modelled as rationals (no float arithmetic is performed by the wrapper);
objects other than primitives are opaque identifiers. -/
inductive PyValue where
  | vnil
  | vnone
  | vint (n : Int)
  | vfloat (x : Rat)
  | vstr (s : String)
  | vbool (b : Bool)
  | vobj (id : Nat)
deriving DecidableEq

/-- A pending interpreter exception: a category (type name) and a message. -/
structure PyError where
  kind : String
  msg : String
deriving DecidableEq

/-- A reference into interpreter-owned storage: one of the registers
(py_getreg) or the return-value cell (py_retval). Modelled from the spec:
the register bank and the landing cell for call results are the two
storage areas the wrapper hands out references into. -/
inductive PyRef where
  | reg (i : Nat)
  | retval
deriving DecidableEq

/-- Modelled from the spec: the interpreter-owned mutable state the wrapper
operates on (spec section 6): the operand stack (head is the top), the
fixed register bank r0-r7, the return-value cell, the single pending
exception cell, the host output sink (for printed diagnostics), and the
global namespace. -/
structure PyVM where
  stack : List PyValue
  regs : List PyValue
  retval : PyValue
  exc : Option PyError
  output : List String
  globals : List (String × PyValue)
deriving DecidableEq

/-- py_peek(0): the current stack top position. Pointer differences in the
source are modelled as differences of stack depths, so the position itself
is the depth. -/
def py_peek0 (vm : PyVM) : Nat := vm.stack.length

/-- py_push: copy a value onto the operand stack. -/
def py_push (v : PyValue) (vm : PyVM) : PyVM :=
  { vm with stack := v :: vm.stack }

/-- py_pop: remove the top of the operand stack. -/
def py_pop (vm : PyVM) : PyVM :=
  { vm with stack := vm.stack.tail }

/-- py_shrink(n): pop n values from the operand stack. -/
def py_shrink (n : Nat) (vm : PyVM) : PyVM :=
  { vm with stack := vm.stack.drop n }

/-- py_checkexc: is an exception pending? -/
def py_checkexc (vm : PyVM) : Bool := vm.exc.isSome

/-- Truncate a stack to a recorded depth d (keep the bottom d values). -/
def stackToDepth (d : Nat) (s : List PyValue) : List PyValue :=
  s.drop (s.length - d)

/-- py_clearexc(p0): clear the pending exception; when an unwinding point
is supplied, also reset the operand stack to that point. -/
def py_clearexc (p0 : Option Nat) (vm : PyVM) : PyVM :=
  match p0 with
  | some d => { vm with exc := none, stack := stackToDepth d vm.stack }
  | none => { vm with exc := none }

/-- Render a pending exception for display. -/
def formatExc (e : PyError) : String := e.kind ++ ": " ++ e.msg

/-- py_printexc: write the pending exception to the host output sink. -/
def py_printexc (vm : PyVM) : PyVM :=
  match vm.exc with
  | some e => { vm with output := vm.output ++ [formatExc e] }
  | none => vm

/-- py_getglobal: look a name up in the global namespace; none models the
NULL return for an unbound name. -/
def py_getglobal (n : String) (vm : PyVM) : Option PyValue :=
  (vm.globals.find? (fun p => p.1 == n)).map Prod.snd

/-- py_exception(tp, msg): set the pending exception cell. -/
def py_exception (kind : String) (msg : String) (vm : PyVM) : PyVM :=
  { vm with exc := some ⟨kind, msg⟩ }

/-- Write a value through a reference into interpreter storage. -/
def writeRef (r : PyRef) (v : PyValue) (vm : PyVM) : PyVM :=
  match r with
  | .reg i => { vm with regs := vm.regs.set i v }
  | .retval => { vm with retval := v }

/-- Read the value a reference currently designates. -/
def readRef (vm : PyVM) (r : PyRef) : PyValue :=
  match r with
  | .reg i => vm.regs.getD i .vnil
  | .retval => vm.retval

/-- py_getreg(i): a reference to register i. -/
def py_getreg (i : Nat) : PyRef := .reg i

/-- py_r0(): a reference to register 0. -/
def py_r0 : PyRef := .reg 0

/-- py_retval(): a reference to the return-value cell, distinct from the
register bank (the repository documents the stable-storage option space as
minus-one for py_retval versus 0-7 for registers). -/
def py_retval : PyRef := .retval

/-- py_newint(dst, v): construct an int into the cell dst designates. -/
def py_newint (dst : PyRef) (n : Int) (vm : PyVM) : PyVM := writeRef dst (.vint n) vm

/-- py_newfloat(dst, v). -/
def py_newfloat (dst : PyRef) (x : Rat) (vm : PyVM) : PyVM := writeRef dst (.vfloat x) vm

/-- py_newstr(dst, v). -/
def py_newstr (dst : PyRef) (s : String) (vm : PyVM) : PyVM := writeRef dst (.vstr s) vm

/-- py_newbool(dst, v). -/
def py_newbool (dst : PyRef) (b : Bool) (vm : PyVM) : PyVM := writeRef dst (.vbool b) vm

/-- py_assign(dst, src): copy the value src designates into dst. -/
def py_assign (dst : PyRef) (src : PyRef) (vm : PyVM) : PyVM :=
  writeRef dst (readRef vm src) vm

/-- Exception type name used for a missing global. -/
def tp_NameError : String := "NameError"

/-- Exception type name used for a missing method. -/
def tp_AttributeError : String := "AttributeError"

/-- Modelled from the spec: the observable behavior of one invocation of an
interpreter callable (py_call / py_vectorcall are pocketpy primitives, not
repository code). A successful invocation stores a value in the
return-value cell and may leave extra values on the stack above the frame;
a failed one sets the pending exception. Neither disturbs the stack below
the consumed arguments nor touches the register bank. -/
structure CallBehavior where
  ok : Bool
  ret : PyValue
  leftover : List PyValue
  err : PyError
deriving DecidableEq

/-- py_call(f, argc, argv): invoke a callable; arguments are read, not
consumed from the operand stack. Returns whether the call succeeded. -/
def py_call (b : CallBehavior) (argc : Nat) (vm : PyVM) : Bool × PyVM :=
  (b.ok,
    if b.ok then { vm with retval := b.ret, stack := b.leftover ++ vm.stack }
    else { vm with exc := some b.err, stack := b.leftover ++ vm.stack })

/-- py_vectorcall(argc, kwargc): invoke the method set up on the stack,
consuming the pushed method, receiver and arguments. -/
def py_vectorcall (b : CallBehavior) (argc : Nat) (kwargc : Nat) (vm : PyVM) : Bool × PyVM :=
  let rest := vm.stack.drop (argc + 2 * kwargc + 2)
  (b.ok,
    if b.ok then { vm with retval := b.ret, stack := b.leftover ++ rest }
    else { vm with exc := some b.err, stack := b.leftover ++ rest })

/-- py_pushmethod(name): with the receiver on top of the stack, look the
method up. On success the stack becomes receiver :: method :: rest; on
failure it is left unchanged. The lookup outcome and the method value are
parameters (they depend on interpreter object state the wrapper only
observes). -/
def py_pushmethod (found : Bool) (method : PyValue) (vm : PyVM) : Bool × PyVM :=
  if found then
    match vm.stack with
    | self :: rest => (true, { vm with stack := self :: method :: rest })
    | [] => (true, vm)
  else (false, vm)

/-! ## Section 0: constants and internal helpers (pktpy_hi.h lines 26-32) -/

/-- PH_MAX_REG: maximum number of registers (r0-r7). -/
def PH_MAX_REG : Int := 8

/-- ph__check_reg: validate a register index (a C int, so possibly
negative); true when valid. -/
def ph__check_reg (reg : Int) : Bool :=
  decide (reg ≥ 0) && decide (reg < PH_MAX_REG)

/-! ## Section 1: scope management (pktpy_hi.h lines 40-103) -/

/-- ph_Scope: captured unwind point (stack depth at entry, standing in for
the py_StackRef pointer) and the exit-time error flag. -/
structure ph_Scope where
  unwind_point : Nat
  has_exception : Bool
deriving DecidableEq

/-- ph_scope_begin: capture the current stack position. -/
def ph_scope_begin (vm : PyVM) : ph_Scope :=
  { unwind_point := py_peek0 vm, has_exception := false }

/-- ph_scope_end: on a pending exception, record it, clear it to the
unwind point and return false; otherwise shrink any positive extra depth
and return true. -/
def ph_scope_end (scope : ph_Scope) (vm : PyVM) : Bool × ph_Scope × PyVM :=
  if py_checkexc vm then
    (false, { scope with has_exception := true },
      py_clearexc (some scope.unwind_point) vm)
  else
    let depth : Int := (py_peek0 vm : Int) - (scope.unwind_point : Int)
    if depth > 0 then (true, scope, py_shrink depth.toNat vm)
    else (true, scope, vm)

/-- ph_scope_end_print: like ph_scope_end but prints the pending exception
before clearing it. -/
def ph_scope_end_print (scope : ph_Scope) (vm : PyVM) : Bool × ph_Scope × PyVM :=
  if py_checkexc vm then
    (false, { scope with has_exception := true },
      py_clearexc (some scope.unwind_point) (py_printexc vm))
  else
    let depth : Int := (py_peek0 vm : Int) - (scope.unwind_point : Int)
    if depth > 0 then (true, scope, py_shrink depth.toNat vm)
    else (true, scope, vm)

/-- ph_scope_end_raise: restore the stack regardless, then return false
with the exception left pending, or true when none is pending. -/
def ph_scope_end_raise (scope : ph_Scope) (vm : PyVM) : Bool × ph_Scope × PyVM :=
  let depth : Int := (py_peek0 vm : Int) - (scope.unwind_point : Int)
  let vm1 := if depth > 0 then py_shrink depth.toNat vm else vm
  if py_checkexc vm1 then
    (false, { scope with has_exception := true }, vm1)
  else (true, scope, vm1)

/-- ph_scope_failed. -/
def ph_scope_failed (scope : ph_Scope) : Bool := scope.has_exception

/-! ## Section 3: value creation (pktpy_hi.h lines 203-247) -/

/-- ph_int: construct an int in register r0 and return a reference to r0. -/
def ph_int (val : Int) (vm : PyVM) : PyRef × PyVM :=
  (py_r0, py_newint py_r0 val vm)

/-- ph_float. -/
def ph_float (val : Rat) (vm : PyVM) : PyRef × PyVM :=
  (py_r0, py_newfloat py_r0 val vm)

/-- ph_str. -/
def ph_str (val : String) (vm : PyVM) : PyRef × PyVM :=
  (py_r0, py_newstr py_r0 val vm)

/-- ph_bool. -/
def ph_bool (val : Bool) (vm : PyVM) : PyRef × PyVM :=
  (py_r0, py_newbool py_r0 val vm)

/-- ph_int_r: construct an int into an explicit register. The source
asserts on an invalid index (standard assert semantics abort execution),
modelled as the none outcome; on a valid index the write happens and a
reference to that register is returned. -/
def ph_int_r (reg : Int) (val : Int) (vm : PyVM) : Option (PyRef × PyVM) :=
  if ph__check_reg reg then
    some (py_getreg reg.toNat, py_newint (py_getreg reg.toNat) val vm)
  else none

/-- ph_float_r: as ph_int_r, for floats. -/
def ph_float_r (reg : Int) (val : Rat) (vm : PyVM) : Option (PyRef × PyVM) :=
  if ph__check_reg reg then
    some (py_getreg reg.toNat, py_newfloat (py_getreg reg.toNat) val vm)
  else none

/-- ph_str_r: as ph_int_r, for strings. -/
def ph_str_r (reg : Int) (val : String) (vm : PyVM) : Option (PyRef × PyVM) :=
  if ph__check_reg reg then
    some (py_getreg reg.toNat, py_newstr (py_getreg reg.toNat) val vm)
  else none

/-- ph_bool_r: as ph_int_r, for booleans. -/
def ph_bool_r (reg : Int) (val : Bool) (vm : PyVM) : Option (PyRef × PyVM) :=
  if ph__check_reg reg then
    some (py_getreg reg.toNat, py_newbool (py_getreg reg.toNat) val vm)
  else none

/-! ## Section 4: safe function calls (pktpy_hi.h lines 264-715)

Every ph_call variant takes, besides its source parameters, a
CallBehavior describing what the invoked callable does (the callable
itself lives inside the interpreter). Arguments passed by reference in
the source appear here as the values they reference, since the
interpreter copies the referenced value wherever an argument is consumed.
-/

/-- ph_Result: success flag and (possibly NULL, modelled as none) value
reference. -/
structure ph_Result where
  ok : Bool
  val : Option PyRef
deriving DecidableEq

/-- The NameError message injected for an unbound global (source format
string: name %s is not defined, with the name quoted). -/
def nameErrorMsg (func_name : String) : String :=
  "name " ++ func_name ++ " is not defined"

/-- The AttributeError message injected for a missing method (source
format string: object has no method %s, with the name quoted). -/
def methodErrorMsg (method_name : String) : String :=
  "object has no method " ++ method_name

/-- ph_call0: call a global function by name with no arguments;
clear-and-report policy, volatile result. -/
def ph_call0 (func_name : String) (b : CallBehavior) (vm : PyVM) : ph_Result × PyVM :=
  let scope := ph_scope_begin vm
  match py_getglobal func_name vm with
  | none =>
      let vm1 := py_exception tp_NameError (nameErrorMsg func_name) vm
      (⟨false, none⟩, (ph_scope_end_print scope vm1).2.2)
  | some _fn =>
      let c := py_call b 0 vm
      let r : ph_Result := ⟨c.1, if c.1 then some py_retval else none⟩
      (r, (ph_scope_end_print scope c.2).2.2)

/-- ph_call1: call a global function with 1 argument. -/
def ph_call1 (func_name : String) (arg0 : PyValue) (b : CallBehavior) (vm : PyVM) :
    ph_Result × PyVM :=
  let scope := ph_scope_begin vm
  match py_getglobal func_name vm with
  | none =>
      let vm1 := py_exception tp_NameError (nameErrorMsg func_name) vm
      (⟨false, none⟩, (ph_scope_end_print scope vm1).2.2)
  | some _fn =>
      let c := py_call b 1 vm
      let r : ph_Result := ⟨c.1, if c.1 then some py_retval else none⟩
      (r, (ph_scope_end_print scope c.2).2.2)

/-- ph_call2: call a global function with 2 contiguous arguments. -/
def ph_call2 (func_name : String) (args : List PyValue) (b : CallBehavior) (vm : PyVM) :
    ph_Result × PyVM :=
  let scope := ph_scope_begin vm
  match py_getglobal func_name vm with
  | none =>
      let vm1 := py_exception tp_NameError (nameErrorMsg func_name) vm
      (⟨false, none⟩, (ph_scope_end_print scope vm1).2.2)
  | some _fn =>
      let c := py_call b 2 vm
      let r : ph_Result := ⟨c.1, if c.1 then some py_retval else none⟩
      (r, (ph_scope_end_print scope c.2).2.2)

/-- ph_call3: call a global function with 3 contiguous arguments. -/
def ph_call3 (func_name : String) (args : List PyValue) (b : CallBehavior) (vm : PyVM) :
    ph_Result × PyVM :=
  let scope := ph_scope_begin vm
  match py_getglobal func_name vm with
  | none =>
      let vm1 := py_exception tp_NameError (nameErrorMsg func_name) vm
      (⟨false, none⟩, (ph_scope_end_print scope vm1).2.2)
  | some _fn =>
      let c := py_call b 3 vm
      let r : ph_Result := ⟨c.1, if c.1 then some py_retval else none⟩
      (r, (ph_scope_end_print scope c.2).2.2)

/-- ph_call: call any callable reference with argc arguments. -/
def ph_call (callable : PyValue) (argc : Nat) (argv : List PyValue) (b : CallBehavior)
    (vm : PyVM) : ph_Result × PyVM :=
  let scope := ph_scope_begin vm
  let c := py_call b argc vm
  let r : ph_Result := ⟨c.1, if c.1 then some py_retval else none⟩
  (r, (ph_scope_end_print scope c.2).2.2)

/-- ph_callmethod0: call a method on an object with no arguments. The
method lookup outcome (method_found, and the method value when found) is
interpreter state the wrapper only observes, hence a parameter. -/
def ph_callmethod0 (obj : PyValue) (method_name : String) (method_found : Bool)
    (method : PyValue) (b : CallBehavior) (vm : PyVM) : ph_Result × PyVM :=
  let scope := ph_scope_begin vm
  let vm1 := py_push obj vm
  let pm := py_pushmethod method_found method vm1
  if pm.1 then
    let c := py_vectorcall b 0 0 pm.2
    let r : ph_Result := ⟨c.1, if c.1 then some py_retval else none⟩
    (r, (ph_scope_end_print scope c.2).2.2)
  else
    let vm2 := py_pop pm.2
    let vm3 := py_exception tp_AttributeError (methodErrorMsg method_name) vm2
    (⟨false, none⟩, (ph_scope_end_print scope vm3).2.2)

/-- ph_callmethod1: call a method on an object with 1 argument. -/
def ph_callmethod1 (obj : PyValue) (method_name : String) (arg0 : PyValue)
    (method_found : Bool) (method : PyValue) (b : CallBehavior) (vm : PyVM) :
    ph_Result × PyVM :=
  let scope := ph_scope_begin vm
  let vm1 := py_push obj vm
  let pm := py_pushmethod method_found method vm1
  if pm.1 then
    let vm2 := py_push arg0 pm.2
    let c := py_vectorcall b 1 0 vm2
    let r : ph_Result := ⟨c.1, if c.1 then some py_retval else none⟩
    (r, (ph_scope_end_print scope c.2).2.2)
  else
    let vm2 := py_pop pm.2
    let vm3 := py_exception tp_AttributeError (methodErrorMsg method_name) vm2
    (⟨false, none⟩, (ph_scope_end_print scope vm3).2.2)

/-- ph_call0_raise: as ph_call0 under the propagate policy. -/
def ph_call0_raise (func_name : String) (b : CallBehavior) (vm : PyVM) :
    ph_Result × PyVM :=
  let scope := ph_scope_begin vm
  match py_getglobal func_name vm with
  | none =>
      let vm1 := py_exception tp_NameError (nameErrorMsg func_name) vm
      (⟨false, none⟩, (ph_scope_end_raise scope vm1).2.2)
  | some _fn =>
      let c := py_call b 0 vm
      let r : ph_Result := ⟨c.1, if c.1 then some py_retval else none⟩
      (r, (ph_scope_end_raise scope c.2).2.2)

/-- ph_call1_raise. -/
def ph_call1_raise (func_name : String) (arg0 : PyValue) (b : CallBehavior) (vm : PyVM) :
    ph_Result × PyVM :=
  let scope := ph_scope_begin vm
  match py_getglobal func_name vm with
  | none =>
      let vm1 := py_exception tp_NameError (nameErrorMsg func_name) vm
      (⟨false, none⟩, (ph_scope_end_raise scope vm1).2.2)
  | some _fn =>
      let c := py_call b 1 vm
      let r : ph_Result := ⟨c.1, if c.1 then some py_retval else none⟩
      (r, (ph_scope_end_raise scope c.2).2.2)

/-- ph_call2_raise. -/
def ph_call2_raise (func_name : String) (args : List PyValue) (b : CallBehavior)
    (vm : PyVM) : ph_Result × PyVM :=
  let scope := ph_scope_begin vm
  match py_getglobal func_name vm with
  | none =>
      let vm1 := py_exception tp_NameError (nameErrorMsg func_name) vm
      (⟨false, none⟩, (ph_scope_end_raise scope vm1).2.2)
  | some _fn =>
      let c := py_call b 2 vm
      let r : ph_Result := ⟨c.1, if c.1 then some py_retval else none⟩
      (r, (ph_scope_end_raise scope c.2).2.2)

/-- ph_call3_raise. -/
def ph_call3_raise (func_name : String) (args : List PyValue) (b : CallBehavior)
    (vm : PyVM) : ph_Result × PyVM :=
  let scope := ph_scope_begin vm
  match py_getglobal func_name vm with
  | none =>
      let vm1 := py_exception tp_NameError (nameErrorMsg func_name) vm
      (⟨false, none⟩, (ph_scope_end_raise scope vm1).2.2)
  | some _fn =>
      let c := py_call b 3 vm
      let r : ph_Result := ⟨c.1, if c.1 then some py_retval else none⟩
      (r, (ph_scope_end_raise scope c.2).2.2)

/-- ph_call_raise. -/
def ph_call_raise (callable : PyValue) (argc : Nat) (argv : List PyValue)
    (b : CallBehavior) (vm : PyVM) : ph_Result × PyVM :=
  let scope := ph_scope_begin vm
  let c := py_call b argc vm
  let r : ph_Result := ⟨c.1, if c.1 then some py_retval else none⟩
  (r, (ph_scope_end_raise scope c.2).2.2)

/-- ph_callmethod0_raise. -/
def ph_callmethod0_raise (obj : PyValue) (method_name : String) (method_found : Bool)
    (method : PyValue) (b : CallBehavior) (vm : PyVM) : ph_Result × PyVM :=
  let scope := ph_scope_begin vm
  let vm1 := py_push obj vm
  let pm := py_pushmethod method_found method vm1
  if pm.1 then
    let c := py_vectorcall b 0 0 pm.2
    let r : ph_Result := ⟨c.1, if c.1 then some py_retval else none⟩
    (r, (ph_scope_end_raise scope c.2).2.2)
  else
    let vm2 := py_pop pm.2
    let vm3 := py_exception tp_AttributeError (methodErrorMsg method_name) vm2
    (⟨false, none⟩, (ph_scope_end_raise scope vm3).2.2)

/-- ph_callmethod1_raise. -/
def ph_callmethod1_raise (obj : PyValue) (method_name : String) (arg0 : PyValue)
    (method_found : Bool) (method : PyValue) (b : CallBehavior) (vm : PyVM) :
    ph_Result × PyVM :=
  let scope := ph_scope_begin vm
  let vm1 := py_push obj vm
  let pm := py_pushmethod method_found method vm1
  if pm.1 then
    let vm2 := py_push arg0 pm.2
    let c := py_vectorcall b 1 0 vm2
    let r : ph_Result := ⟨c.1, if c.1 then some py_retval else none⟩
    (r, (ph_scope_end_raise scope c.2).2.2)
  else
    let vm2 := py_pop pm.2
    let vm3 := py_exception tp_AttributeError (methodErrorMsg method_name) vm2
    (⟨false, none⟩, (ph_scope_end_raise scope vm3).2.2)

/-- ph_call0_r: register-backed variant; validates the register index
before any interpreter operation, and on success copies the volatile
result into the register immediately. -/
def ph_call0_r (reg : Int) (func_name : String) (b : CallBehavior) (vm : PyVM) :
    ph_Result × PyVM :=
  if ph__check_reg reg then
    let scope := ph_scope_begin vm
    match py_getglobal func_name vm with
    | none =>
        let vm1 := py_exception tp_NameError (nameErrorMsg func_name) vm
        (⟨false, none⟩, (ph_scope_end_print scope vm1).2.2)
    | some _fn =>
        let c := py_call b 0 vm
        if c.1 then
          let vm1 := py_assign (py_getreg reg.toNat) py_retval c.2
          (⟨true, some (py_getreg reg.toNat)⟩, (ph_scope_end_print scope vm1).2.2)
        else
          (⟨false, none⟩, (ph_scope_end_print scope c.2).2.2)
  else (⟨false, none⟩, vm)

/-- ph_call1_r. -/
def ph_call1_r (reg : Int) (func_name : String) (arg0 : PyValue) (b : CallBehavior)
    (vm : PyVM) : ph_Result × PyVM :=
  if ph__check_reg reg then
    let scope := ph_scope_begin vm
    match py_getglobal func_name vm with
    | none =>
        let vm1 := py_exception tp_NameError (nameErrorMsg func_name) vm
        (⟨false, none⟩, (ph_scope_end_print scope vm1).2.2)
    | some _fn =>
        let c := py_call b 1 vm
        if c.1 then
          let vm1 := py_assign (py_getreg reg.toNat) py_retval c.2
          (⟨true, some (py_getreg reg.toNat)⟩, (ph_scope_end_print scope vm1).2.2)
        else
          (⟨false, none⟩, (ph_scope_end_print scope c.2).2.2)
  else (⟨false, none⟩, vm)

/-- ph_call2_r. -/
def ph_call2_r (reg : Int) (func_name : String) (args : List PyValue) (b : CallBehavior)
    (vm : PyVM) : ph_Result × PyVM :=
  if ph__check_reg reg then
    let scope := ph_scope_begin vm
    match py_getglobal func_name vm with
    | none =>
        let vm1 := py_exception tp_NameError (nameErrorMsg func_name) vm
        (⟨false, none⟩, (ph_scope_end_print scope vm1).2.2)
    | some _fn =>
        let c := py_call b 2 vm
        if c.1 then
          let vm1 := py_assign (py_getreg reg.toNat) py_retval c.2
          (⟨true, some (py_getreg reg.toNat)⟩, (ph_scope_end_print scope vm1).2.2)
        else
          (⟨false, none⟩, (ph_scope_end_print scope c.2).2.2)
  else (⟨false, none⟩, vm)

/-- ph_call3_r. -/
def ph_call3_r (reg : Int) (func_name : String) (args : List PyValue) (b : CallBehavior)
    (vm : PyVM) : ph_Result × PyVM :=
  if ph__check_reg reg then
    let scope := ph_scope_begin vm
    match py_getglobal func_name vm with
    | none =>
        let vm1 := py_exception tp_NameError (nameErrorMsg func_name) vm
        (⟨false, none⟩, (ph_scope_end_print scope vm1).2.2)
    | some _fn =>
        let c := py_call b 3 vm
        if c.1 then
          let vm1 := py_assign (py_getreg reg.toNat) py_retval c.2
          (⟨true, some (py_getreg reg.toNat)⟩, (ph_scope_end_print scope vm1).2.2)
        else
          (⟨false, none⟩, (ph_scope_end_print scope c.2).2.2)
  else (⟨false, none⟩, vm)

/-- ph_call_r. -/
def ph_call_r (reg : Int) (callable : PyValue) (argc : Nat) (argv : List PyValue)
    (b : CallBehavior) (vm : PyVM) : ph_Result × PyVM :=
  if ph__check_reg reg then
    let scope := ph_scope_begin vm
    let c := py_call b argc vm
    if c.1 then
      let vm1 := py_assign (py_getreg reg.toNat) py_retval c.2
      (⟨true, some (py_getreg reg.toNat)⟩, (ph_scope_end_print scope vm1).2.2)
    else
      (⟨false, none⟩, (ph_scope_end_print scope c.2).2.2)
  else (⟨false, none⟩, vm)

/-- ph_callmethod0_r. -/
def ph_callmethod0_r (reg : Int) (obj : PyValue) (method_name : String)
    (method_found : Bool) (method : PyValue) (b : CallBehavior) (vm : PyVM) :
    ph_Result × PyVM :=
  if ph__check_reg reg then
    let scope := ph_scope_begin vm
    let vm1 := py_push obj vm
    let pm := py_pushmethod method_found method vm1
    if pm.1 then
      let c := py_vectorcall b 0 0 pm.2
      if c.1 then
        let vm2 := py_assign (py_getreg reg.toNat) py_retval c.2
        (⟨true, some (py_getreg reg.toNat)⟩, (ph_scope_end_print scope vm2).2.2)
      else
        (⟨false, none⟩, (ph_scope_end_print scope c.2).2.2)
    else
      let vm2 := py_pop pm.2
      let vm3 := py_exception tp_AttributeError (methodErrorMsg method_name) vm2
      (⟨false, none⟩, (ph_scope_end_print scope vm3).2.2)
  else (⟨false, none⟩, vm)

/-- ph_callmethod1_r. -/
def ph_callmethod1_r (reg : Int) (obj : PyValue) (method_name : String) (arg0 : PyValue)
    (method_found : Bool) (method : PyValue) (b : CallBehavior) (vm : PyVM) :
    ph_Result × PyVM :=
  if ph__check_reg reg then
    let scope := ph_scope_begin vm
    let vm1 := py_push obj vm
    let pm := py_pushmethod method_found method vm1
    if pm.1 then
      let vm2 := py_push arg0 pm.2
      let c := py_vectorcall b 1 0 vm2
      if c.1 then
        let vm3 := py_assign (py_getreg reg.toNat) py_retval c.2
        (⟨true, some (py_getreg reg.toNat)⟩, (ph_scope_end_print scope vm3).2.2)
      else
        (⟨false, none⟩, (ph_scope_end_print scope c.2).2.2)
    else
      let vm2 := py_pop pm.2
      let vm3 := py_exception tp_AttributeError (methodErrorMsg method_name) vm2
      (⟨false, none⟩, (ph_scope_end_print scope vm3).2.2)
  else (⟨false, none⟩, vm)

/-! ## Helper lemmas -/

theorem getD_set_self {α : Type} (l : List α) (i : Nat) (v d : α) (h : i < l.length) :
    (l.set i v).getD i d = v := by
  induction l generalizing i with
  | nil => simp at h
  | cons a t ih =>
    cases i with
    | zero => simp
    | succ n => simpa using ih n (by simpa using h)

theorem getD_set_ne {α : Type} (l : List α) (i j : Nat) (v d : α) (h : i ≠ j) :
    (l.set i v).getD j d = l.getD j d := by
  induction l generalizing i j with
  | nil => simp
  | cons a t ih =>
    cases i with
    | zero =>
      cases j with
      | zero => exact absurd rfl h
      | succ m => simp
    | succ n =>
      cases j with
      | zero => simp
      | succ m => simpa using ih n m (by omega)

/-- All three scope closes leave the register bank untouched. -/
theorem scope_end_regs (scope : ph_Scope) (vm : PyVM) :
    ((ph_scope_end scope vm).2.2).regs = vm.regs ∧
    ((ph_scope_end_print scope vm).2.2).regs = vm.regs ∧
    ((ph_scope_end_raise scope vm).2.2).regs = vm.regs := by
  refine ⟨?_, ?_, ?_⟩
  · unfold ph_scope_end
    dsimp only
    split
    · simp [py_clearexc]
    · split <;> simp [py_shrink]
  · unfold ph_scope_end_print
    dsimp only
    split
    · simp [py_clearexc, py_printexc]
      split <;> rfl
    · split <;> simp [py_shrink]
  · unfold ph_scope_end_raise
    dsimp only
    split <;> (try split) <;> simp [py_shrink]

/-- The clearing scope closes always leave no pending exception. -/
theorem scope_end_clears_exc (scope : ph_Scope) (vm : PyVM) :
    ((ph_scope_end scope vm).2.2).exc = none ∧
    ((ph_scope_end_print scope vm).2.2).exc = none := by
  constructor
  · unfold ph_scope_end
    dsimp only
    split
    · rfl
    · next h =>
      split <;> simpa [py_checkexc, py_shrink] using h
  · unfold ph_scope_end_print
    dsimp only
    split
    · rfl
    · next h =>
      split <;> simpa [py_checkexc, py_shrink] using h

/-! ## Claim theorems -/

/-- C1. For every guarded region: if ph_scope_begin is taken at stack
depth d, interpreter operations then occur (taking the state from vm0 to
some vm1 that has not popped below the entry depth: the region made a
non-negative number of net pushes), and ph_scope_end or
ph_scope_end_print is called with no error pending, then the closed
state has operand-stack depth d again. -/
theorem scope_stack_restoration (vm0 vm1 : PyVM)
    (hdepth : vm0.stack.length ≤ vm1.stack.length)
    (hexc : vm1.exc = none) :
    ((ph_scope_end (ph_scope_begin vm0) vm1).2.2).stack.length = vm0.stack.length ∧
    ((ph_scope_end_print (ph_scope_begin vm0) vm1).2.2).stack.length = vm0.stack.length := by
  have hchk : py_checkexc vm1 = false := by simp [py_checkexc, hexc]
  constructor
  · unfold ph_scope_end
    dsimp only
    rw [hchk]
    simp only [Bool.false_eq_true, if_false, py_peek0, ph_scope_begin, py_shrink]
    split
    · next h =>
      simp only [List.length_drop]
      omega
    · next h =>
      dsimp only
      omega
  · unfold ph_scope_end_print
    dsimp only
    rw [hchk]
    simp only [Bool.false_eq_true, if_false, py_peek0, ph_scope_begin, py_shrink]
    split
    · next h =>
      simp only [List.length_drop]
      omega
    · next h =>
      dsimp only
      omega

/-- Witness for C1: a concrete region that pushed two values on top of a
one-deep stack is restored to depth one by both closes. -/
theorem scope_stack_restoration_witness :
    ((PyVM.mk [.vint 0] [] .vnil none [] []).stack.length ≤
      (PyVM.mk [.vint 2, .vint 1, .vint 0] [] .vnil none [] []).stack.length) ∧
    ((ph_scope_end (ph_scope_begin (PyVM.mk [.vint 0] [] .vnil none [] []))
        (PyVM.mk [.vint 2, .vint 1, .vint 0] [] .vnil none [] [])).2.2).stack.length =
      (PyVM.mk [.vint 0] [] .vnil none [] []).stack.length := by
  refine ⟨by decide, ?_⟩
  exact (scope_stack_restoration
    (PyVM.mk [.vint 0] [] .vnil none [] [])
    (PyVM.mk [.vint 2, .vint 1, .vint 0] [] .vnil none [] [])
    (by decide) (by decide)).1

/-- C2. Closing with an error pending: ph_scope_end and
ph_scope_end_print return false and leave no error pending afterward;
ph_scope_end_raise returns false and leaves exactly the pending error
unchanged. Closing with no error pending: all three return true. -/
theorem scope_error_resolution (scope : ph_Scope) (vm : PyVM) :
    (∀ e, vm.exc = some e →
      (ph_scope_end scope vm).1 = false ∧
      ((ph_scope_end scope vm).2.2).exc = none ∧
      (ph_scope_end_print scope vm).1 = false ∧
      ((ph_scope_end_print scope vm).2.2).exc = none ∧
      (ph_scope_end_raise scope vm).1 = false ∧
      ((ph_scope_end_raise scope vm).2.2).exc = some e) ∧
    (vm.exc = none →
      (ph_scope_end scope vm).1 = true ∧
      (ph_scope_end_print scope vm).1 = true ∧
      (ph_scope_end_raise scope vm).1 = true) := by
  constructor
  · intro e he
    have hchk : py_checkexc vm = true := by simp [py_checkexc, he]
    refine ⟨?_, ?_, ?_, ?_, ?_, ?_⟩
    · unfold ph_scope_end; dsimp only; rw [hchk]; rfl
    · exact (scope_end_clears_exc scope vm).1
    · unfold ph_scope_end_print; dsimp only; rw [hchk]; rfl
    · exact (scope_end_clears_exc scope vm).2
    · unfold ph_scope_end_raise
      dsimp only
      split <;> (try split) <;> simp_all [py_checkexc, py_shrink]
    · unfold ph_scope_end_raise
      dsimp only
      split <;> (try split) <;> simp_all [py_checkexc, py_shrink]
  · intro he
    have hchk : py_checkexc vm = false := by simp [py_checkexc, he]
    refine ⟨?_, ?_, ?_⟩
    · unfold ph_scope_end; dsimp only; rw [hchk]
      simp only [Bool.false_eq_true, if_false]
      split <;> rfl
    · unfold ph_scope_end_print; dsimp only; rw [hchk]
      simp only [Bool.false_eq_true, if_false]
      split <;> rfl
    · unfold ph_scope_end_raise
      dsimp only
      split <;> (try split) <;> simp_all [py_checkexc, py_shrink]

/-- Witness for C2: at a concrete pending error the clearing closes
return false and clear, the propagating close keeps it; and at a
concrete clean state all three closes return true. -/
theorem scope_error_resolution_witness :
    ((ph_scope_end ⟨0, false⟩ (PyVM.mk [] [] .vnil (some ⟨"E", "boom"⟩) [] [])).1 = false ∧
      ((ph_scope_end_raise ⟨0, false⟩
        (PyVM.mk [] [] .vnil (some ⟨"E", "boom"⟩) [] [])).2.2).exc = some ⟨"E", "boom"⟩) ∧
    (ph_scope_end ⟨0, false⟩ (PyVM.mk [] [] .vnil none [] [])).1 = true := by
  have h1 := (scope_error_resolution ⟨0, false⟩
    (PyVM.mk [] [] .vnil (some ⟨"E", "boom"⟩) [] [])).1 ⟨"E", "boom"⟩ rfl
  have h2 := (scope_error_resolution ⟨0, false⟩
    (PyVM.mk [] [] .vnil none [] [])).2 rfl
  exact ⟨⟨h1.1, h1.2.2.2.2.2⟩, h2.1⟩

/-- C3. Calling an unbound global name: ph_call0 returns ok=false and
leaves no error pending (clear-and-report), ph_call0_raise returns
ok=false and leaves a pending NameError categorized error carrying the
name-not-defined message. -/
theorem call_missing_global (func_name : String) (b : CallBehavior) (vm : PyVM)
    (hmiss : py_getglobal func_name vm = none) :
    (ph_call0 func_name b vm).1.ok = false ∧
    ((ph_call0 func_name b vm).2).exc = none ∧
    (ph_call0_raise func_name b vm).1.ok = false ∧
    ((ph_call0_raise func_name b vm).2).exc =
      some ⟨tp_NameError, nameErrorMsg func_name⟩ := by
  refine ⟨?_, ?_, ?_, ?_⟩
  · simp [ph_call0, hmiss]
  · simp only [ph_call0, hmiss]
    exact (scope_end_clears_exc _ _).2
  · simp [ph_call0_raise, hmiss]
  · simp only [ph_call0_raise, hmiss]
    unfold ph_scope_end_raise
    dsimp only
    split <;> (try split) <;>
      simp_all [py_checkexc, py_shrink, py_exception, ph_scope_begin, py_peek0]

/-- Witness for C3: calling name g in an empty global namespace. -/
theorem call_missing_global_witness :
    (ph_call0 "g" ⟨true, .vnil, [], ⟨"E", "e"⟩⟩ (PyVM.mk [] [] .vnil none [] [])).1.ok
      = false ∧
    ((ph_call0_raise "g" ⟨true, .vnil, [], ⟨"E", "e"⟩⟩
        (PyVM.mk [] [] .vnil none [] [])).2).exc =
      some ⟨tp_NameError, nameErrorMsg "g"⟩ := by
  have h := call_missing_global "g" ⟨true, .vnil, [], ⟨"E", "e"⟩⟩
    (PyVM.mk [] [] .vnil none [] []) (by decide)
  exact ⟨h.1, h.2.2.2⟩

/-- C4. Calling a non-existent method on a receiver leaves the operand
stack exactly as it was before the call, for every method-call variant
(the receiver push is undone before the categorized error is injected,
and the guard then closes at the entry depth). method_found = false is
the lookup outcome for a method that does not exist. -/
theorem callmethod_balanced_failure (obj m arg0 : PyValue) (mname : String)
    (b : CallBehavior) (vm : PyVM) (reg : Int) :
    ((ph_callmethod0 obj mname false m b vm).2).stack = vm.stack ∧
    ((ph_callmethod1 obj mname arg0 false m b vm).2).stack = vm.stack ∧
    ((ph_callmethod0_raise obj mname false m b vm).2).stack = vm.stack ∧
    ((ph_callmethod1_raise obj mname arg0 false m b vm).2).stack = vm.stack ∧
    ((ph_callmethod0_r reg obj mname false m b vm).2).stack = vm.stack ∧
    ((ph_callmethod1_r reg obj mname arg0 false m b vm).2).stack = vm.stack := by
  have hprint : ∀ (sc : ph_Scope) (w : PyVM), w.exc ≠ none →
      ((ph_scope_end_print sc w).2.2).stack = stackToDepth sc.unwind_point w.stack := by
    intro sc w hw
    have hps : (py_printexc w).stack = w.stack := by
      unfold py_printexc
      split <;> rfl
    have hchk : py_checkexc w = true := by
      simp [py_checkexc, Option.isSome_iff_ne_none, hw]
    unfold ph_scope_end_print
    dsimp only
    rw [hchk]
    simp [py_clearexc, hps]
  have hraise : ∀ (sc : ph_Scope) (w : PyVM),
      w.stack.length = sc.unwind_point →
      ((ph_scope_end_raise sc w).2.2).stack = w.stack := by
    intro sc w hw
    have hdep : ¬ ((py_peek0 w : Int) - (sc.unwind_point : Int) > 0) := by
      simp [py_peek0, hw]
    unfold ph_scope_end_raise
    dsimp only
    rw [if_neg hdep]
    split <;> rfl
  have hdrop : stackToDepth vm.stack.length vm.stack = vm.stack := by
    simp [stackToDepth]
  have hstk : (py_exception tp_AttributeError (methodErrorMsg mname)
      (py_pop (py_push obj vm))).stack = vm.stack := by
    simp [py_exception, py_pop, py_push]
  refine ⟨?_, ?_, ?_, ?_, ?_, ?_⟩
  · unfold ph_callmethod0
    simp only [py_pushmethod, if_false, Bool.false_eq_true, ite_false]
    rw [hprint _ _ (by simp [py_exception])]
    rw [hstk]
    simpa [ph_scope_begin, py_peek0] using hdrop
  · unfold ph_callmethod1
    simp only [py_pushmethod, if_false, Bool.false_eq_true, ite_false]
    rw [hprint _ _ (by simp [py_exception])]
    rw [hstk]
    simpa [ph_scope_begin, py_peek0] using hdrop
  · unfold ph_callmethod0_raise
    simp only [py_pushmethod, if_false, Bool.false_eq_true, ite_false]
    rw [hraise _ _ (by simpa [ph_scope_begin, py_peek0] using congrArg List.length hstk)]
    exact hstk
  · unfold ph_callmethod1_raise
    simp only [py_pushmethod, if_false, Bool.false_eq_true, ite_false]
    rw [hraise _ _ (by simpa [ph_scope_begin, py_peek0] using congrArg List.length hstk)]
    exact hstk
  · unfold ph_callmethod0_r
    split
    · simp only [py_pushmethod, if_false, Bool.false_eq_true, ite_false]
      rw [hprint _ _ (by simp [py_exception])]
      rw [hstk]
      simpa [ph_scope_begin, py_peek0] using hdrop
    · rfl
  · unfold ph_callmethod1_r
    split
    · simp only [py_pushmethod, if_false, Bool.false_eq_true, ite_false]
      rw [hprint _ _ (by simp [py_exception])]
      rw [hstk]
      simpa [ph_scope_begin, py_peek0] using hdrop
    · rfl

/-- After copying the volatile result into register k and closing the
guard, register k holds the value the return cell held. -/
theorem assign_then_close_regs (sc : ph_Scope) (w : PyVM) (k : Nat)
    (hk : k < w.regs.length) :
    ((ph_scope_end_print sc (py_assign (py_getreg k) py_retval w)).2.2).regs.getD k .vnil
      = w.retval := by
  rw [(scope_end_regs sc (py_assign (py_getreg k) py_retval w)).2.1]
  simp only [py_assign, readRef, writeRef, py_getreg, py_retval]
  exact getD_set_self _ _ _ _ hk

/-- C5. For every stable-storage call variant with a valid register
index: on success the volatile result is copied into the requested
register (the closed state reads the invoked callable's return value
there) and Result.value references that register; on failure of any kind
(call raised, name unbound, method missing) the register bank is left
exactly as it was. -/
theorem stable_storage_copy (reg : Int) (func_name mname : String)
    (arg0 obj m callable : PyValue) (args argv : List PyValue) (argc : Nat)
    (b : CallBehavior) (vm : PyVM)
    (hreg : ph__check_reg reg = true) (hlen : vm.regs.length = 8) :
    (∀ fn, py_getglobal func_name vm = some fn → b.ok = true →
      (ph_call0_r reg func_name b vm).1 = ⟨true, some (py_getreg reg.toNat)⟩ ∧
      ((ph_call0_r reg func_name b vm).2).regs.getD reg.toNat .vnil = b.ret) ∧
    (b.ok = false → ((ph_call0_r reg func_name b vm).2).regs = vm.regs) ∧
    (py_getglobal func_name vm = none →
      ((ph_call0_r reg func_name b vm).2).regs = vm.regs) ∧
    (∀ fn, py_getglobal func_name vm = some fn → b.ok = true →
      (ph_call1_r reg func_name arg0 b vm).1 = ⟨true, some (py_getreg reg.toNat)⟩ ∧
      ((ph_call1_r reg func_name arg0 b vm).2).regs.getD reg.toNat .vnil = b.ret) ∧
    (b.ok = false → ((ph_call1_r reg func_name arg0 b vm).2).regs = vm.regs) ∧
    (py_getglobal func_name vm = none →
      ((ph_call1_r reg func_name arg0 b vm).2).regs = vm.regs) ∧
    (∀ fn, py_getglobal func_name vm = some fn → b.ok = true →
      (ph_call2_r reg func_name args b vm).1 = ⟨true, some (py_getreg reg.toNat)⟩ ∧
      ((ph_call2_r reg func_name args b vm).2).regs.getD reg.toNat .vnil = b.ret) ∧
    (b.ok = false → ((ph_call2_r reg func_name args b vm).2).regs = vm.regs) ∧
    (py_getglobal func_name vm = none →
      ((ph_call2_r reg func_name args b vm).2).regs = vm.regs) ∧
    (∀ fn, py_getglobal func_name vm = some fn → b.ok = true →
      (ph_call3_r reg func_name args b vm).1 = ⟨true, some (py_getreg reg.toNat)⟩ ∧
      ((ph_call3_r reg func_name args b vm).2).regs.getD reg.toNat .vnil = b.ret) ∧
    (b.ok = false → ((ph_call3_r reg func_name args b vm).2).regs = vm.regs) ∧
    (py_getglobal func_name vm = none →
      ((ph_call3_r reg func_name args b vm).2).regs = vm.regs) ∧
    (b.ok = true →
      (ph_call_r reg callable argc argv b vm).1 = ⟨true, some (py_getreg reg.toNat)⟩ ∧
      ((ph_call_r reg callable argc argv b vm).2).regs.getD reg.toNat .vnil = b.ret) ∧
    (b.ok = false → ((ph_call_r reg callable argc argv b vm).2).regs = vm.regs) ∧
    (b.ok = true →
      (ph_callmethod0_r reg obj mname true m b vm).1
        = ⟨true, some (py_getreg reg.toNat)⟩ ∧
      ((ph_callmethod0_r reg obj mname true m b vm).2).regs.getD reg.toNat .vnil
        = b.ret) ∧
    (b.ok = false → ((ph_callmethod0_r reg obj mname true m b vm).2).regs = vm.regs) ∧
    (((ph_callmethod0_r reg obj mname false m b vm).2).regs = vm.regs) ∧
    (b.ok = true →
      (ph_callmethod1_r reg obj mname arg0 true m b vm).1
        = ⟨true, some (py_getreg reg.toNat)⟩ ∧
      ((ph_callmethod1_r reg obj mname arg0 true m b vm).2).regs.getD reg.toNat .vnil
        = b.ret) ∧
    (b.ok = false →
      ((ph_callmethod1_r reg obj mname arg0 true m b vm).2).regs = vm.regs) ∧
    (((ph_callmethod1_r reg obj mname arg0 false m b vm).2).regs = vm.regs) := by
  have hk : reg.toNat < vm.regs.length := by
    simp [ph__check_reg, PH_MAX_REG] at hreg
    omega
  refine ⟨?_, ?_, ?_, ?_, ?_, ?_, ?_, ?_, ?_, ?_, ?_, ?_, ?_, ?_, ?_, ?_, ?_, ?_, ?_, ?_⟩
  · intro fn hg hok
    simp only [ph_call0_r, hreg, if_true, hg, py_call, hok, ite_true]
    exact ⟨by trivial, assign_then_close_regs _ _ _ hk⟩
  · intro hok
    cases hg : py_getglobal func_name vm <;>
      simp only [ph_call0_r, hreg, if_true, hg, py_call, hok, Bool.false_eq_true, ite_false] <;>
      rw [(scope_end_regs _ _).2.1] <;> simp [py_exception, py_pop, py_call]
  · intro hg
    simp only [ph_call0_r, hreg, if_true, hg]
    rw [(scope_end_regs _ _).2.1] <;> simp [py_exception, py_pop, py_call]
  · intro fn hg hok
    simp only [ph_call1_r, hreg, if_true, hg, py_call, hok, ite_true]
    exact ⟨by trivial, assign_then_close_regs _ _ _ hk⟩
  · intro hok
    cases hg : py_getglobal func_name vm <;>
      simp only [ph_call1_r, hreg, if_true, hg, py_call, hok, Bool.false_eq_true, ite_false] <;>
      rw [(scope_end_regs _ _).2.1] <;> simp [py_exception, py_pop, py_call]
  · intro hg
    simp only [ph_call1_r, hreg, if_true, hg]
    rw [(scope_end_regs _ _).2.1] <;> simp [py_exception, py_pop, py_call]
  · intro fn hg hok
    simp only [ph_call2_r, hreg, if_true, hg, py_call, hok, ite_true]
    exact ⟨by trivial, assign_then_close_regs _ _ _ hk⟩
  · intro hok
    cases hg : py_getglobal func_name vm <;>
      simp only [ph_call2_r, hreg, if_true, hg, py_call, hok, Bool.false_eq_true, ite_false] <;>
      rw [(scope_end_regs _ _).2.1] <;> simp [py_exception, py_pop, py_call]
  · intro hg
    simp only [ph_call2_r, hreg, if_true, hg]
    rw [(scope_end_regs _ _).2.1] <;> simp [py_exception, py_pop, py_call]
  · intro fn hg hok
    simp only [ph_call3_r, hreg, if_true, hg, py_call, hok, ite_true]
    exact ⟨by trivial, assign_then_close_regs _ _ _ hk⟩
  · intro hok
    cases hg : py_getglobal func_name vm <;>
      simp only [ph_call3_r, hreg, if_true, hg, py_call, hok, Bool.false_eq_true, ite_false] <;>
      rw [(scope_end_regs _ _).2.1] <;> simp [py_exception, py_pop, py_call]
  · intro hg
    simp only [ph_call3_r, hreg, if_true, hg]
    rw [(scope_end_regs _ _).2.1] <;> simp [py_exception, py_pop, py_call]
  · intro hok
    simp only [ph_call_r, hreg, if_true, py_call, hok, ite_true]
    exact ⟨by trivial, assign_then_close_regs _ _ _ hk⟩
  · intro hok
    simp only [ph_call_r, hreg, if_true, py_call, hok, Bool.false_eq_true, ite_false]
    rw [(scope_end_regs _ _).2.1] <;> simp [py_exception, py_pop, py_call]
  · intro hok
    simp only [ph_callmethod0_r, hreg, if_true, py_push, py_pushmethod, py_vectorcall,
      hok, ite_true]
    exact ⟨by trivial, assign_then_close_regs _ _ _ hk⟩
  · intro hok
    simp only [ph_callmethod0_r, hreg, if_true, py_push, py_pushmethod, py_vectorcall,
      hok, Bool.false_eq_true, ite_false]
    rw [(scope_end_regs _ _).2.1] <;> simp [py_exception, py_pop, py_call]
  · simp only [ph_callmethod0_r, hreg, if_true, py_push, py_pushmethod,
      Bool.false_eq_true, ite_false]
    rw [(scope_end_regs _ _).2.1] <;> simp [py_exception, py_pop, py_call]
  · intro hok
    simp only [ph_callmethod1_r, hreg, if_true, py_push, py_pushmethod, py_vectorcall,
      hok, ite_true]
    exact ⟨by trivial, assign_then_close_regs _ _ _ hk⟩
  · intro hok
    simp only [ph_callmethod1_r, hreg, if_true, py_push, py_pushmethod, py_vectorcall,
      hok, Bool.false_eq_true, ite_false]
    rw [(scope_end_regs _ _).2.1] <;> simp [py_exception, py_pop, py_call]
  · simp only [ph_callmethod1_r, hreg, if_true, py_push, py_pushmethod,
      Bool.false_eq_true, ite_false]
    rw [(scope_end_regs _ _).2.1] <;> simp [py_exception, py_pop, py_call]

/-- Witness for C5: calling global f (bound, succeeding with value 10)
with stable storage into register 4 makes register 4 read 10 and the
Result reference register 4; a failing call leaves the bank unchanged. -/
theorem stable_storage_copy_witness :
    (ph_call0_r 4 "f" ⟨true, .vint 10, [], ⟨"E", "e"⟩⟩
        (PyVM.mk [] (List.replicate 8 .vnil) .vnil none [] [("f", .vobj 1)])).1
      = ⟨true, some (py_getreg 4)⟩ ∧
    ((ph_call0_r 4 "f" ⟨true, .vint 10, [], ⟨"E", "e"⟩⟩
        (PyVM.mk [] (List.replicate 8 .vnil) .vnil none [] [("f", .vobj 1)])).2).regs.getD
        4 .vnil = .vint 10 := by
  have h := stable_storage_copy 4 "f" "g" .vnil .vnil .vnil .vnil [] [] 0
    ⟨true, .vint 10, [], ⟨"E", "e"⟩⟩
    (PyVM.mk [] (List.replicate 8 .vnil) .vnil none [] [("f", .vobj 1)])
    (by decide) (by decide)
  exact h.1 (.vobj 1) (by decide) rfl

/-- C6. Every stable-storage call variant invoked with a register index
outside the valid range returns Result{ok=false, val=NULL} and leaves
the interpreter state completely untouched: no lookup, no call, no stack
change, no exception-cell change. -/
theorem invalid_register_rejected (reg : Int) (func_name mname : String)
    (arg0 obj m callable : PyValue) (args argv : List PyValue) (argc : Nat)
    (found : Bool) (b : CallBehavior) (vm : PyVM)
    (hreg : ph__check_reg reg = false) :
    ph_call0_r reg func_name b vm = (⟨false, none⟩, vm) ∧
    ph_call1_r reg func_name arg0 b vm = (⟨false, none⟩, vm) ∧
    ph_call2_r reg func_name args b vm = (⟨false, none⟩, vm) ∧
    ph_call3_r reg func_name args b vm = (⟨false, none⟩, vm) ∧
    ph_call_r reg callable argc argv b vm = (⟨false, none⟩, vm) ∧
    ph_callmethod0_r reg obj mname found m b vm = (⟨false, none⟩, vm) ∧
    ph_callmethod1_r reg obj mname arg0 found m b vm = (⟨false, none⟩, vm) := by
  unfold ph_call0_r ph_call1_r ph_call2_r ph_call3_r ph_call_r ph_callmethod0_r
    ph_callmethod1_r
  rw [hreg]
  simp

/-- Witness for C6: register index 8 (one past the last register) is
rejected with the state unchanged, as is index minus one. -/
theorem invalid_register_rejected_witness :
    ph_call0_r 8 "f" ⟨true, .vint 1, [], ⟨"E", "e"⟩⟩
        (PyVM.mk [] (List.replicate 8 .vnil) .vnil none [] [("f", .vobj 1)])
      = (⟨false, none⟩, PyVM.mk [] (List.replicate 8 .vnil) .vnil none [] [("f", .vobj 1)]) ∧
    ph_call0_r (-1) "f" ⟨true, .vint 1, [], ⟨"E", "e"⟩⟩
        (PyVM.mk [] (List.replicate 8 .vnil) .vnil none [] [("f", .vobj 1)])
      = (⟨false, none⟩, PyVM.mk [] (List.replicate 8 .vnil) .vnil none [] [("f", .vobj 1)]) := by
  constructor
  · exact (invalid_register_rejected 8 "f" "g" .vnil .vnil .vnil .vnil [] [] 0 false
      ⟨true, .vint 1, [], ⟨"E", "e"⟩⟩
      (PyVM.mk [] (List.replicate 8 .vnil) .vnil none [] [("f", .vobj 1)]) (by decide)).1
  · exact (invalid_register_rejected (-1) "f" "g" .vnil .vnil .vnil .vnil [] [] 0 false
      ⟨true, .vint 1, [], ⟨"E", "e"⟩⟩
      (PyVM.mk [] (List.replicate 8 .vnil) .vnil none [] [("f", .vobj 1)]) (by decide)).1

/-- C7. Every addressed value constructor called with a slot index
outside the valid range yields the same single outcome, uniformly across
all four constructors: the assertion on the index fails (modelled as the
none outcome, following standard assert semantics in the source), so no
result reference is produced and no storage cell is written. -/
theorem constructor_invalid_slot (reg : Int) (i : Int) (x : Rat) (s : String)
    (bl : Bool) (vm : PyVM) (hreg : ph__check_reg reg = false) :
    ph_int_r reg i vm = none ∧ ph_float_r reg x vm = none ∧
    ph_str_r reg s vm = none ∧ ph_bool_r reg bl vm = none := by
  unfold ph_int_r ph_float_r ph_str_r ph_bool_r
  rw [hreg]
  simp

/-- Witness for C7: slot index 8 is rejected by all four constructors. -/
theorem constructor_invalid_slot_witness :
    ph_int_r 8 1 (PyVM.mk [] (List.replicate 8 .vnil) .vnil none [] []) = none ∧
    ph_str_r 8 "a" (PyVM.mk [] (List.replicate 8 .vnil) .vnil none [] []) = none := by
  have h := constructor_invalid_slot 8 1 1 "a" true
    (PyVM.mk [] (List.replicate 8 .vnil) .vnil none [] []) (by decide)
  exact ⟨h.1, h.2.2.1⟩

/-- C9. Register isolation and last-write-wins for the addressed
constructors: writing slot i never changes the value readable at a
different slot j, and after two writes to the same slot the references
returned by both writes read the second value. -/
theorem register_isolation_last_write (i j : Int) (v w : Int) (vm : PyVM)
    (hi : ph__check_reg i = true) (hj : ph__check_reg j = true) (hne : i ≠ j)
    (hlen : vm.regs.length = 8) :
    (∃ vmi, ph_int_r i v vm = some (py_getreg i.toNat, vmi) ∧
      vmi.regs.getD j.toNat .vnil = vm.regs.getD j.toNat .vnil) ∧
    (∃ a vm1 b2 vm2, ph_int_r i v vm = some (a, vm1) ∧
      ph_int_r i w vm1 = some (b2, vm2) ∧
      readRef vm2 a = .vint w ∧ readRef vm2 b2 = .vint w) := by
  have hi8 : 0 ≤ i ∧ i < 8 := by simpa [ph__check_reg, PH_MAX_REG] using hi
  have hj8 : 0 ≤ j ∧ j < 8 := by simpa [ph__check_reg, PH_MAX_REG] using hj
  have hnat : i.toNat ≠ j.toNat := by omega
  have hilt : i.toNat < vm.regs.length := by omega
  have hilt2 : i.toNat < (vm.regs.set i.toNat (PyValue.vint v)).length := by
    simpa using hilt
  constructor
  · refine ⟨py_newint (py_getreg i.toNat) v vm, ?_, ?_⟩
    · unfold ph_int_r
      rw [hi]
      simp
    · simp only [py_newint, writeRef, py_getreg]
      exact getD_set_ne _ _ _ _ _ hnat
  · refine ⟨py_getreg i.toNat, py_newint (py_getreg i.toNat) v vm, py_getreg i.toNat,
      py_newint (py_getreg i.toNat) w (py_newint (py_getreg i.toNat) v vm),
      ?_, ?_, ?_, ?_⟩
    · unfold ph_int_r
      rw [hi]
      simp
    · unfold ph_int_r
      rw [hi]
      simp
    · simp only [readRef, py_newint, writeRef, py_getreg]
      exact getD_set_self _ _ _ _ hilt2
    · simp only [readRef, py_newint, writeRef, py_getreg]
      exact getD_set_self _ _ _ _ hilt2

/-- Witness for C9: the example from the spec, slot 0 written with 1 then
with 2; the isolated slot is 1; both returned references read 2. -/
theorem register_isolation_last_write_witness :
    ∃ a vm1 b2 vm2,
      ph_int_r 0 1 (PyVM.mk [] (List.replicate 8 .vnil) .vnil none [] [])
        = some (a, vm1) ∧
      ph_int_r 0 2 vm1 = some (b2, vm2) ∧
      readRef vm2 a = .vint 2 ∧ readRef vm2 b2 = .vint 2 :=
  (register_isolation_last_write 0 1 1 2
    (PyVM.mk [] (List.replicate 8 .vnil) .vnil none [] [])
    (by decide) (by decide) (by decide) (by decide)).2

/-- C8 counterexample. The claim states that volatile call results and
the unaddressed constructors alias one and the same volatile cell, so
that after a successful volatile call a subsequent unaddressed
constructor write would be read through the call result reference. At a
concrete state, calling a bound global f whose invocation returns 7 and
then constructing 42 with ph_int, the call result reference still reads
7, not 42: ph_int writes register r0 while the call result references
the separate return-value cell. -/
theorem volatile_alias_counterexample :
    (ph_call0 "f" ⟨true, .vint 7, [], ⟨"E", "e"⟩⟩
        (PyVM.mk [] (List.replicate 8 .vnil) .vnil none [] [("f", .vobj 1)])).1.ok
      = true ∧
    (ph_call0 "f" ⟨true, .vint 7, [], ⟨"E", "e"⟩⟩
        (PyVM.mk [] (List.replicate 8 .vnil) .vnil none [] [("f", .vobj 1)])).1.val
      = some py_retval ∧
    readRef (ph_int 42 ((ph_call0 "f" ⟨true, .vint 7, [], ⟨"E", "e"⟩⟩
        (PyVM.mk [] (List.replicate 8 .vnil) .vnil none [] [("f", .vobj 1)])).2)).2
        py_retval = .vint 7 ∧
    ¬ (readRef (ph_int 42 ((ph_call0 "f" ⟨true, .vint 7, [], ⟨"E", "e"⟩⟩
        (PyVM.mk [] (List.replicate 8 .vnil) .vnil none [] [("f", .vobj 1)])).2)).2
        py_retval = .vint 42) := by
  refine ⟨?_, ?_, ?_, ?_⟩ <;> decide

/-- C8 amended. The unaddressed value constructors all alias the single
volatile register slot 0 (each returns a reference to r0, and a later
constructor write is observed through an earlier constructor reference),
while a volatile call result references the separate return-value cell:
Result.value of a successful non-register call variant is the py_retval
reference, and a subsequent unaddressed constructor write leaves the
return-value cell, and hence what that result reference reads,
unchanged. -/
theorem volatile_slot_amended (i : Int) (x : Rat) (s : String) (bl : Bool)
    (func_name : String) (b : CallBehavior) (vm : PyVM)
    (hlen : vm.regs.length = 8) :
    (ph_int i vm).1 = py_r0 ∧ (ph_float x vm).1 = py_r0 ∧
    (ph_str s vm).1 = py_r0 ∧ (ph_bool bl vm).1 = py_r0 ∧
    readRef ((ph_str s ((ph_int i vm).2)).2) ((ph_int i vm).1) = .vstr s ∧
    ((ph_call0 func_name b vm).1.ok = true →
      (ph_call0 func_name b vm).1.val = some py_retval) ∧
    ((ph_int i ((ph_call0 func_name b vm).2)).2).retval
      = ((ph_call0 func_name b vm).2).retval := by
  refine ⟨rfl, rfl, rfl, rfl, ?_, ?_, rfl⟩
  · simp only [ph_int, ph_str, py_newint, py_newstr, writeRef, py_r0, readRef]
    exact getD_set_self _ _ _ _ (by simp [hlen])
  · intro hok
    revert hok
    unfold ph_call0
    cases hg : py_getglobal func_name vm <;> simp [py_call]

/-- Witness for the amended C8: at a concrete state with a bound global,
the successful call result references the return-value cell and a
subsequent ph_str write through r0 is read back through an earlier
ph_int reference. -/
theorem volatile_slot_amended_witness :
    readRef ((ph_str "z" ((ph_int 1
        (PyVM.mk [] (List.replicate 8 .vnil) .vnil none [] [("f", .vobj 1)])).2)).2)
      ((ph_int 1
        (PyVM.mk [] (List.replicate 8 .vnil) .vnil none [] [("f", .vobj 1)])).1)
      = .vstr "z" ∧
    ((ph_call0 "f" ⟨true, .vint 7, [], ⟨"E", "e"⟩⟩
        (PyVM.mk [] (List.replicate 8 .vnil) .vnil none [] [("f", .vobj 1)])).1.ok = true →
      (ph_call0 "f" ⟨true, .vint 7, [], ⟨"E", "e"⟩⟩
        (PyVM.mk [] (List.replicate 8 .vnil) .vnil none [] [("f", .vobj 1)])).1.val
        = some py_retval) := by
  have h := volatile_slot_amended 1 1 "z" true "f" ⟨true, .vint 7, [], ⟨"E", "e"⟩⟩
    (PyVM.mk [] (List.replicate 8 .vnil) .vnil none [] [("f", .vobj 1)]) (by decide)
  exact ⟨h.2.2.2.2.1, h.2.2.2.2.2.1⟩

/-- C10. For every call-dispatch variant, the returned Result satisfies:
ok = false exactly when the value reference is NULL; no failure path
returns a non-null value reference and every success carries one. -/
theorem result_ok_val_null (reg : Int) (func_name mname : String)
    (arg0 obj m callable : PyValue) (args argv : List PyValue) (argc : Nat)
    (mf : Bool) (b : CallBehavior) (vm : PyVM) :
    ((ph_call0 func_name b vm).1.ok = false ↔
      (ph_call0 func_name b vm).1.val = none) ∧
    ((ph_call1 func_name arg0 b vm).1.ok = false ↔
      (ph_call1 func_name arg0 b vm).1.val = none) ∧
    ((ph_call2 func_name args b vm).1.ok = false ↔
      (ph_call2 func_name args b vm).1.val = none) ∧
    ((ph_call3 func_name args b vm).1.ok = false ↔
      (ph_call3 func_name args b vm).1.val = none) ∧
    ((ph_call callable argc argv b vm).1.ok = false ↔
      (ph_call callable argc argv b vm).1.val = none) ∧
    ((ph_callmethod0 obj mname mf m b vm).1.ok = false ↔
      (ph_callmethod0 obj mname mf m b vm).1.val = none) ∧
    ((ph_callmethod1 obj mname arg0 mf m b vm).1.ok = false ↔
      (ph_callmethod1 obj mname arg0 mf m b vm).1.val = none) ∧
    ((ph_call0_raise func_name b vm).1.ok = false ↔
      (ph_call0_raise func_name b vm).1.val = none) ∧
    ((ph_call1_raise func_name arg0 b vm).1.ok = false ↔
      (ph_call1_raise func_name arg0 b vm).1.val = none) ∧
    ((ph_call2_raise func_name args b vm).1.ok = false ↔
      (ph_call2_raise func_name args b vm).1.val = none) ∧
    ((ph_call3_raise func_name args b vm).1.ok = false ↔
      (ph_call3_raise func_name args b vm).1.val = none) ∧
    ((ph_call_raise callable argc argv b vm).1.ok = false ↔
      (ph_call_raise callable argc argv b vm).1.val = none) ∧
    ((ph_callmethod0_raise obj mname mf m b vm).1.ok = false ↔
      (ph_callmethod0_raise obj mname mf m b vm).1.val = none) ∧
    ((ph_callmethod1_raise obj mname arg0 mf m b vm).1.ok = false ↔
      (ph_callmethod1_raise obj mname arg0 mf m b vm).1.val = none) ∧
    ((ph_call0_r reg func_name b vm).1.ok = false ↔
      (ph_call0_r reg func_name b vm).1.val = none) ∧
    ((ph_call1_r reg func_name arg0 b vm).1.ok = false ↔
      (ph_call1_r reg func_name arg0 b vm).1.val = none) ∧
    ((ph_call2_r reg func_name args b vm).1.ok = false ↔
      (ph_call2_r reg func_name args b vm).1.val = none) ∧
    ((ph_call3_r reg func_name args b vm).1.ok = false ↔
      (ph_call3_r reg func_name args b vm).1.val = none) ∧
    ((ph_call_r reg callable argc argv b vm).1.ok = false ↔
      (ph_call_r reg callable argc argv b vm).1.val = none) ∧
    ((ph_callmethod0_r reg obj mname mf m b vm).1.ok = false ↔
      (ph_callmethod0_r reg obj mname mf m b vm).1.val = none) ∧
    ((ph_callmethod1_r reg obj mname arg0 mf m b vm).1.ok = false ↔
      (ph_callmethod1_r reg obj mname arg0 mf m b vm).1.val = none) := by
  refine ⟨?_, ?_, ?_, ?_, ?_, ?_, ?_, ?_, ?_, ?_, ?_, ?_, ?_, ?_, ?_, ?_, ?_, ?_, ?_,
    ?_, ?_⟩
  · cases hg : py_getglobal func_name vm <;> cases hb : b.ok <;>
      simp [ph_call0, hg, py_call, hb]
  · cases hg : py_getglobal func_name vm <;> cases hb : b.ok <;>
      simp [ph_call1, hg, py_call, hb]
  · cases hg : py_getglobal func_name vm <;> cases hb : b.ok <;>
      simp [ph_call2, hg, py_call, hb]
  · cases hg : py_getglobal func_name vm <;> cases hb : b.ok <;>
      simp [ph_call3, hg, py_call, hb]
  · cases hb : b.ok <;> simp [ph_call, py_call, hb]
  · cases mf <;> cases hb : b.ok <;>
      simp [ph_callmethod0, py_push, py_pushmethod, py_vectorcall, hb]
  · cases mf <;> cases hb : b.ok <;>
      simp [ph_callmethod1, py_push, py_pushmethod, py_vectorcall, hb]
  · cases hg : py_getglobal func_name vm <;> cases hb : b.ok <;>
      simp [ph_call0_raise, hg, py_call, hb]
  · cases hg : py_getglobal func_name vm <;> cases hb : b.ok <;>
      simp [ph_call1_raise, hg, py_call, hb]
  · cases hg : py_getglobal func_name vm <;> cases hb : b.ok <;>
      simp [ph_call2_raise, hg, py_call, hb]
  · cases hg : py_getglobal func_name vm <;> cases hb : b.ok <;>
      simp [ph_call3_raise, hg, py_call, hb]
  · cases hb : b.ok <;> simp [ph_call_raise, py_call, hb]
  · cases mf <;> cases hb : b.ok <;>
      simp [ph_callmethod0_raise, py_push, py_pushmethod, py_vectorcall, hb]
  · cases mf <;> cases hb : b.ok <;>
      simp [ph_callmethod1_raise, py_push, py_pushmethod, py_vectorcall, hb]
  · cases hr : ph__check_reg reg <;> cases hg : py_getglobal func_name vm <;>
      cases hb : b.ok <;> simp [ph_call0_r, hr, hg, py_call, hb]
  · cases hr : ph__check_reg reg <;> cases hg : py_getglobal func_name vm <;>
      cases hb : b.ok <;> simp [ph_call1_r, hr, hg, py_call, hb]
  · cases hr : ph__check_reg reg <;> cases hg : py_getglobal func_name vm <;>
      cases hb : b.ok <;> simp [ph_call2_r, hr, hg, py_call, hb]
  · cases hr : ph__check_reg reg <;> cases hg : py_getglobal func_name vm <;>
      cases hb : b.ok <;> simp [ph_call3_r, hr, hg, py_call, hb]
  · cases hr : ph__check_reg reg <;> cases hb : b.ok <;>
      simp [ph_call_r, hr, py_call, hb]
  · cases hr : ph__check_reg reg <;> cases mf <;> cases hb : b.ok <;>
      simp [ph_callmethod0_r, hr, py_push, py_pushmethod, py_vectorcall, hb]
  · cases hr : ph__check_reg reg <;> cases mf <;> cases hb : b.ok <;>
      simp [ph_callmethod1_r, hr, py_push, py_pushmethod, py_vectorcall, hb]

end PktpyHi
